import Mathlib

/-!
Shallow embedding of `src/main/vendor/led/led_strip_rmt_dev.c`, the RMT-backed
LED strip driver of Ghost_ESP.  Pure data manipulation (the pixel buffer) is
embedded directly; the external RMT collaborators (`rmt_enable`, `rmt_transmit`,
`rmt_tx_wait_all_done`, `rmt_disable`, `rmt_new_tx_channel`,
`rmt_new_led_strip_encoder`, `rmt_del_channel`, `rmt_del_encoder`, `calloc`)
are modelled as oracles supplying their result codes, and the driver functions
additionally return the trace of collaborator invocations they perform.
-/

namespace LedStrip

/-! ### ESP-IDF error codes (values from esp_err.h) -/

def ESP_OK : Nat := 0
def ESP_ERR_NO_MEM : Nat := 0x101
def ESP_ERR_INVALID_ARG : Nat := 0x102

/-- Modelled from the spec: the pixel-format enumeration lives in the vendored
`led_strip_types.h` header, which is not part of the excerpt; the spec gives the
enumerants {RGB, GRB, GRBW} plus a terminating INVALID value used by the
`led_pixel_format < LED_PIXEL_FORMAT_INVALID` validity check in
`led_strip_new_rmt_device`.  Declaration order of the upstream header is
GRB, GRBW, RGB, INVALID, so the numeric values are 0, 1, 2, 3. -/
def LED_PIXEL_FORMAT_GRB : Nat := 0

def LED_PIXEL_FORMAT_GRBW : Nat := 1

def LED_PIXEL_FORMAT_RGB : Nat := 2

def LED_PIXEL_FORMAT_INVALID : Nat := 3

/-! ### The device object

`led_strip_rmt_obj` from the source: the RMT channel and encoder handles are
owned opaquely and play no part in buffer manipulation, so the embedded record
keeps the format, length, width and the byte buffer.  The C pixel buffer is a
flexible trailing array indexed from the start of `pixel_buf`; we embed byte
memory as a total function from offsets to byte values, so that the source's
unchecked writes (which in C may fall outside the allocation) are still
modelled as writes at their computed offsets. -/

structure led_strip_rmt_obj where
  led_pixel_format : Nat
  strip_len : Nat
  bytes_per_pixel : Nat
  pixel_buf : Nat → Nat

/-- A single byte store `buf[i] = v`. -/
def writeByte (buf : Nat → Nat) (i v : Nat) : Nat → Nat :=
  fun j => if j = i then v else buf j

/-- Replace the pixel buffer of a device, keeping all other fields. -/
def setBuf (strip : led_strip_rmt_obj) (buf : Nat → Nat) : led_strip_rmt_obj :=
  { strip with pixel_buf := buf }

theorem writeByte_same (buf : Nat → Nat) (i v : Nat) : writeByte buf i v i = v := by
  simp [writeByte]

theorem writeByte_other (buf : Nat → Nat) (i v j : Nat) (h : j ≠ i) :
    writeByte buf i v j = buf j := by
  simp [writeByte, h]

/-! Reading back a three- or four-byte consecutive write. -/

theorem write3_at0 (buf : Nat → Nat) (s a b c : Nat) :
    writeByte (writeByte (writeByte buf s a) (s + 1) b) (s + 2) c s = a := by
  have h2 : s ≠ s + 2 := by omega
  have h1 : s ≠ s + 1 := by omega
  rw [writeByte_other _ _ _ _ h2, writeByte_other _ _ _ _ h1, writeByte_same]

theorem write3_at1 (buf : Nat → Nat) (s a b c : Nat) :
    writeByte (writeByte (writeByte buf s a) (s + 1) b) (s + 2) c (s + 1) = b := by
  have h2 : s + 1 ≠ s + 2 := by omega
  rw [writeByte_other _ _ _ _ h2, writeByte_same]

theorem write3_at2 (buf : Nat → Nat) (s a b c : Nat) :
    writeByte (writeByte (writeByte buf s a) (s + 1) b) (s + 2) c (s + 2) = c := by
  rw [writeByte_same]

theorem write3_frame (buf : Nat → Nat) (s a b c j : Nat)
    (h0 : j ≠ s) (h1 : j ≠ s + 1) (h2 : j ≠ s + 2) :
    writeByte (writeByte (writeByte buf s a) (s + 1) b) (s + 2) c j = buf j := by
  rw [writeByte_other _ _ _ _ h2, writeByte_other _ _ _ _ h1,
    writeByte_other _ _ _ _ h0]

theorem write4_at0 (buf : Nat → Nat) (s a b c d : Nat) :
    writeByte (writeByte (writeByte (writeByte buf s a) (s + 1) b) (s + 2) c)
      (s + 3) d s = a := by
  have h3 : s ≠ s + 3 := by omega
  have h2 : s ≠ s + 2 := by omega
  have h1 : s ≠ s + 1 := by omega
  rw [writeByte_other _ _ _ _ h3, writeByte_other _ _ _ _ h2,
    writeByte_other _ _ _ _ h1, writeByte_same]

theorem write4_at1 (buf : Nat → Nat) (s a b c d : Nat) :
    writeByte (writeByte (writeByte (writeByte buf s a) (s + 1) b) (s + 2) c)
      (s + 3) d (s + 1) = b := by
  have h3 : s + 1 ≠ s + 3 := by omega
  have h2 : s + 1 ≠ s + 2 := by omega
  rw [writeByte_other _ _ _ _ h3, writeByte_other _ _ _ _ h2, writeByte_same]

theorem write4_at2 (buf : Nat → Nat) (s a b c d : Nat) :
    writeByte (writeByte (writeByte (writeByte buf s a) (s + 1) b) (s + 2) c)
      (s + 3) d (s + 2) = c := by
  have h3 : s + 2 ≠ s + 3 := by omega
  rw [writeByte_other _ _ _ _ h3, writeByte_same]

theorem write4_at3 (buf : Nat → Nat) (s a b c d : Nat) :
    writeByte (writeByte (writeByte (writeByte buf s a) (s + 1) b) (s + 2) c)
      (s + 3) d (s + 3) = d := by
  rw [writeByte_same]

theorem write4_frame (buf : Nat → Nat) (s a b c d j : Nat)
    (h0 : j ≠ s) (h1 : j ≠ s + 1) (h2 : j ≠ s + 2) (h3 : j ≠ s + 3) :
    writeByte (writeByte (writeByte (writeByte buf s a) (s + 1) b) (s + 2) c)
      (s + 3) d j = buf j := by
  rw [writeByte_other _ _ _ _ h3, writeByte_other _ _ _ _ h2,
    writeByte_other _ _ _ _ h1, writeByte_other _ _ _ _ h0]

/-- `led_strip_rmt_set_pixel` (lines 36–62): computes
`start = index * bytes_per_pixel`, then switches on the pixel format; RGB
stores `red,green,blue`, GRB stores `green,red,blue`, each masked with `0xFF`
(`% 256`); any other format logs and returns `ESP_ERR_INVALID_ARG` without
writing.  No bounds check on `index`. -/
def led_strip_rmt_set_pixel (strip : led_strip_rmt_obj)
    (index red green blue : Nat) : Nat × led_strip_rmt_obj :=
  let start := index * strip.bytes_per_pixel
  if strip.led_pixel_format = LED_PIXEL_FORMAT_RGB then
    (ESP_OK, setBuf strip (writeByte (writeByte (writeByte strip.pixel_buf
      start (red % 256)) (start + 1) (green % 256)) (start + 2) (blue % 256)))
  else if strip.led_pixel_format = LED_PIXEL_FORMAT_GRB then
    (ESP_OK, setBuf strip (writeByte (writeByte (writeByte strip.pixel_buf
      start (green % 256)) (start + 1) (red % 256)) (start + 2) (blue % 256)))
  else
    (ESP_ERR_INVALID_ARG, strip)

/-- `led_strip_rmt_set_pixel_rgbw` (lines 64–80): returns
`ESP_ERR_INVALID_ARG` unless `index < strip_len` and `bytes_per_pixel == 4`;
otherwise stores `green,red,blue,white` (each `% 256`) at offset `index * 4`. -/
def led_strip_rmt_set_pixel_rgbw (strip : led_strip_rmt_obj)
    (index red green blue white : Nat) : Nat × led_strip_rmt_obj :=
  if ¬ index < strip.strip_len then
    (ESP_ERR_INVALID_ARG, strip)
  else if ¬ strip.bytes_per_pixel = 4 then
    (ESP_ERR_INVALID_ARG, strip)
  else
    let start := index * 4
    (ESP_OK, setBuf strip (writeByte (writeByte (writeByte (writeByte
      strip.pixel_buf start (green % 256)) (start + 1) (red % 256))
      (start + 2) (blue % 256)) (start + 3) (white % 256)))

/-! ### Branch characterizations of the set-pixel operations -/

theorem set_pixel_rgb_fst (strip : led_strip_rmt_obj) (index red green blue : Nat)
    (hfmt : strip.led_pixel_format = LED_PIXEL_FORMAT_RGB) :
    (led_strip_rmt_set_pixel strip index red green blue).1 = ESP_OK := by
  simp [led_strip_rmt_set_pixel, hfmt]

theorem set_pixel_rgb_buf (strip : led_strip_rmt_obj) (index red green blue : Nat)
    (hfmt : strip.led_pixel_format = LED_PIXEL_FORMAT_RGB) :
    (led_strip_rmt_set_pixel strip index red green blue).2.pixel_buf =
      writeByte (writeByte (writeByte strip.pixel_buf
        (index * strip.bytes_per_pixel) (red % 256))
        (index * strip.bytes_per_pixel + 1) (green % 256))
        (index * strip.bytes_per_pixel + 2) (blue % 256) := by
  simp [led_strip_rmt_set_pixel, hfmt, setBuf]

theorem set_pixel_grb_fst (strip : led_strip_rmt_obj) (index red green blue : Nat)
    (hfmt : strip.led_pixel_format = LED_PIXEL_FORMAT_GRB) :
    (led_strip_rmt_set_pixel strip index red green blue).1 = ESP_OK := by
  simp [led_strip_rmt_set_pixel, hfmt, LED_PIXEL_FORMAT_GRB, LED_PIXEL_FORMAT_RGB]

theorem set_pixel_grb_buf (strip : led_strip_rmt_obj) (index red green blue : Nat)
    (hfmt : strip.led_pixel_format = LED_PIXEL_FORMAT_GRB) :
    (led_strip_rmt_set_pixel strip index red green blue).2.pixel_buf =
      writeByte (writeByte (writeByte strip.pixel_buf
        (index * strip.bytes_per_pixel) (green % 256))
        (index * strip.bytes_per_pixel + 1) (red % 256))
        (index * strip.bytes_per_pixel + 2) (blue % 256) := by
  simp [led_strip_rmt_set_pixel, hfmt, setBuf, LED_PIXEL_FORMAT_GRB,
    LED_PIXEL_FORMAT_RGB]

theorem set_pixel_bad_format_eq (strip : led_strip_rmt_obj)
    (index red green blue : Nat)
    (h1 : strip.led_pixel_format ≠ LED_PIXEL_FORMAT_RGB)
    (h2 : strip.led_pixel_format ≠ LED_PIXEL_FORMAT_GRB) :
    led_strip_rmt_set_pixel strip index red green blue =
      (ESP_ERR_INVALID_ARG, strip) := by
  simp [led_strip_rmt_set_pixel, h1, h2]

theorem set_pixel_rgbw_ok_fst (strip : led_strip_rmt_obj)
    (index red green blue white : Nat)
    (hidx : index < strip.strip_len) (hbpp : strip.bytes_per_pixel = 4) :
    (led_strip_rmt_set_pixel_rgbw strip index red green blue white).1 = ESP_OK := by
  simp [led_strip_rmt_set_pixel_rgbw, hidx, hbpp]

theorem set_pixel_rgbw_ok_buf (strip : led_strip_rmt_obj)
    (index red green blue white : Nat)
    (hidx : index < strip.strip_len) (hbpp : strip.bytes_per_pixel = 4) :
    (led_strip_rmt_set_pixel_rgbw strip index red green blue white).2.pixel_buf =
      writeByte (writeByte (writeByte (writeByte strip.pixel_buf
        (index * 4) (green % 256))
        (index * 4 + 1) (red % 256))
        (index * 4 + 2) (blue % 256))
        (index * 4 + 3) (white % 256) := by
  simp [led_strip_rmt_set_pixel_rgbw, hidx, hbpp, setBuf]

theorem set_pixel_rgbw_fail_eq (strip : led_strip_rmt_obj)
    (index red green blue white : Nat)
    (h : strip.strip_len ≤ index ∨ strip.bytes_per_pixel ≠ 4) :
    led_strip_rmt_set_pixel_rgbw strip index red green blue white =
      (ESP_ERR_INVALID_ARG, strip) := by
  rcases h with h | h
  · simp [led_strip_rmt_set_pixel_rgbw, Nat.not_lt.mpr h]
  · by_cases hidx : index < strip.strip_len
    · simp [led_strip_rmt_set_pixel_rgbw, hidx, h]
    · simp [led_strip_rmt_set_pixel_rgbw, hidx]

theorem set_pixel_fields (strip : led_strip_rmt_obj) (index red green blue : Nat) :
    (led_strip_rmt_set_pixel strip index red green blue).2.led_pixel_format =
      strip.led_pixel_format ∧
    (led_strip_rmt_set_pixel strip index red green blue).2.strip_len =
      strip.strip_len ∧
    (led_strip_rmt_set_pixel strip index red green blue).2.bytes_per_pixel =
      strip.bytes_per_pixel := by
  unfold led_strip_rmt_set_pixel
  split_ifs <;> simp [setBuf]

theorem set_pixel_rgbw_fields (strip : led_strip_rmt_obj)
    (index red green blue white : Nat) :
    (led_strip_rmt_set_pixel_rgbw strip index red green blue white).2.led_pixel_format =
      strip.led_pixel_format ∧
    (led_strip_rmt_set_pixel_rgbw strip index red green blue white).2.strip_len =
      strip.strip_len ∧
    (led_strip_rmt_set_pixel_rgbw strip index red green blue white).2.bytes_per_pixel =
      strip.bytes_per_pixel := by
  unfold led_strip_rmt_set_pixel_rgbw
  split_ifs <;> simp [setBuf]

/-- C1: for every device and every `index < strip_len`, `set_pixel` writes
exactly three bytes at offset `index * bytes_per_pixel` in the format-fixed
wire order — (R,G,B) for RGB, (G,R,B) for GRB — leaving all other offsets
unchanged, and `set_pixel_rgbw` writes four bytes in (G,R,B,W) order at the
same offset (with `bytes_per_pixel = 4`); in particular, on a GRB device
`set_pixel(0, 255, 0, 0)` leaves buffer bytes 0,1,2 equal to 0x00, 0xFF, 0x00. -/
theorem C1_set_pixel_wire_order (strip : led_strip_rmt_obj)
    (index red green blue white : Nat) (h : index < strip.strip_len) :
    (strip.led_pixel_format = LED_PIXEL_FORMAT_RGB →
      (led_strip_rmt_set_pixel strip index red green blue).2.pixel_buf
        (index * strip.bytes_per_pixel) = red % 256 ∧
      (led_strip_rmt_set_pixel strip index red green blue).2.pixel_buf
        (index * strip.bytes_per_pixel + 1) = green % 256 ∧
      (led_strip_rmt_set_pixel strip index red green blue).2.pixel_buf
        (index * strip.bytes_per_pixel + 2) = blue % 256 ∧
      ∀ j, j ≠ index * strip.bytes_per_pixel →
        j ≠ index * strip.bytes_per_pixel + 1 →
        j ≠ index * strip.bytes_per_pixel + 2 →
        (led_strip_rmt_set_pixel strip index red green blue).2.pixel_buf j =
          strip.pixel_buf j) ∧
    (strip.led_pixel_format = LED_PIXEL_FORMAT_GRB →
      (led_strip_rmt_set_pixel strip index red green blue).2.pixel_buf
        (index * strip.bytes_per_pixel) = green % 256 ∧
      (led_strip_rmt_set_pixel strip index red green blue).2.pixel_buf
        (index * strip.bytes_per_pixel + 1) = red % 256 ∧
      (led_strip_rmt_set_pixel strip index red green blue).2.pixel_buf
        (index * strip.bytes_per_pixel + 2) = blue % 256 ∧
      ∀ j, j ≠ index * strip.bytes_per_pixel →
        j ≠ index * strip.bytes_per_pixel + 1 →
        j ≠ index * strip.bytes_per_pixel + 2 →
        (led_strip_rmt_set_pixel strip index red green blue).2.pixel_buf j =
          strip.pixel_buf j) ∧
    (strip.bytes_per_pixel = 4 →
      (led_strip_rmt_set_pixel_rgbw strip index red green blue white).2.pixel_buf
        (index * strip.bytes_per_pixel) = green % 256 ∧
      (led_strip_rmt_set_pixel_rgbw strip index red green blue white).2.pixel_buf
        (index * strip.bytes_per_pixel + 1) = red % 256 ∧
      (led_strip_rmt_set_pixel_rgbw strip index red green blue white).2.pixel_buf
        (index * strip.bytes_per_pixel + 2) = blue % 256 ∧
      (led_strip_rmt_set_pixel_rgbw strip index red green blue white).2.pixel_buf
        (index * strip.bytes_per_pixel + 3) = white % 256 ∧
      ∀ j, j ≠ index * strip.bytes_per_pixel →
        j ≠ index * strip.bytes_per_pixel + 1 →
        j ≠ index * strip.bytes_per_pixel + 2 →
        j ≠ index * strip.bytes_per_pixel + 3 →
        (led_strip_rmt_set_pixel_rgbw strip index red green blue white).2.pixel_buf j =
          strip.pixel_buf j) := by
  refine ⟨?_, ?_, ?_⟩
  · intro hfmt
    rw [set_pixel_rgb_buf strip index red green blue hfmt]
    exact ⟨write3_at0 _ _ _ _ _, write3_at1 _ _ _ _ _, write3_at2 _ _ _ _ _,
      fun j h0 h1 h2 => write3_frame _ _ _ _ _ _ h0 h1 h2⟩
  · intro hfmt
    rw [set_pixel_grb_buf strip index red green blue hfmt]
    exact ⟨write3_at0 _ _ _ _ _, write3_at1 _ _ _ _ _, write3_at2 _ _ _ _ _,
      fun j h0 h1 h2 => write3_frame _ _ _ _ _ _ h0 h1 h2⟩
  · intro hbpp
    rw [set_pixel_rgbw_ok_buf strip index red green blue white h hbpp, hbpp]
    exact ⟨write4_at0 _ _ _ _ _ _, write4_at1 _ _ _ _ _ _, write4_at2 _ _ _ _ _ _,
      write4_at3 _ _ _ _ _ _,
      fun j h0 h1 h2 h3 => write4_frame _ _ _ _ _ _ _ h0 h1 h2 h3⟩

/-! ### The transmission protocol

`led_strip_rmt_refresh` only interacts with the RMT channel through four
collaborator calls.  `RmtEnv` supplies the result code each call would return;
the embedded `refresh` returns the driver's result code, the (unchanged)
device, and the ordered trace of collaborator invocations it performed. -/

/-- One collaborator invocation made by `refresh`. -/
inductive RmtEvent where
  | enable : RmtEvent
  | transmit (bytes : List Nat) (length : Nat) (loop_count : Nat) : RmtEvent
  | wait_all_done (timeout : Int) : RmtEvent
  | disable : RmtEvent
deriving DecidableEq, Repr

/-- Result codes the RMT collaborators return when invoked. -/
structure RmtEnv where
  enable_result : Nat
  transmit_result : Nat
  wait_result : Nat
  disable_result : Nat

/-- The bytes `refresh` hands to `rmt_transmit`: the first
`strip_len * bytes_per_pixel` bytes of the pixel buffer. -/
def bufBytes (strip : led_strip_rmt_obj) : List Nat :=
  (List.range (strip.strip_len * strip.bytes_per_pixel)).map strip.pixel_buf

/-- `led_strip_rmt_refresh` (lines 82–120): enable the channel (return its
error on failure); transmit the whole pixel buffer with `loop_count = 0`
(on failure invoke disable, ignore its result, and return the transmit error);
wait for completion with unbounded timeout `-1` (same cleanup on failure);
finally disable the channel, returning its error if it fails, else `ESP_OK`.
The pixel buffer is never written. -/
def led_strip_rmt_refresh (env : RmtEnv) (strip : led_strip_rmt_obj) :
    Nat × led_strip_rmt_obj × List RmtEvent :=
  let n := strip.strip_len * strip.bytes_per_pixel
  if env.enable_result ≠ ESP_OK then
    (env.enable_result, strip, [RmtEvent.enable])
  else if env.transmit_result ≠ ESP_OK then
    (env.transmit_result, strip,
      [RmtEvent.enable, RmtEvent.transmit (bufBytes strip) n 0, RmtEvent.disable])
  else if env.wait_result ≠ ESP_OK then
    (env.wait_result, strip,
      [RmtEvent.enable, RmtEvent.transmit (bufBytes strip) n 0,
        RmtEvent.wait_all_done (-1), RmtEvent.disable])
  else if env.disable_result ≠ ESP_OK then
    (env.disable_result, strip,
      [RmtEvent.enable, RmtEvent.transmit (bufBytes strip) n 0,
        RmtEvent.wait_all_done (-1), RmtEvent.disable])
  else
    (ESP_OK, strip,
      [RmtEvent.enable, RmtEvent.transmit (bufBytes strip) n 0,
        RmtEvent.wait_all_done (-1), RmtEvent.disable])

/-- `led_strip_rmt_clear` (lines 122–128): `memset` the first
`strip_len * bytes_per_pixel` bytes of the pixel buffer to zero, then call
`led_strip_rmt_refresh` once on the result. -/
def led_strip_rmt_clear (env : RmtEnv) (strip : led_strip_rmt_obj) :
    Nat × led_strip_rmt_obj × List RmtEvent :=
  let n := strip.strip_len * strip.bytes_per_pixel
  led_strip_rmt_refresh env
    (setBuf strip (fun j => if j < n then 0 else strip.pixel_buf j))

/-- The payloads of the transmit invocations in a trace. -/
def transmitPayloads (trace : List RmtEvent) : List (List Nat) :=
  trace.filterMap (fun ev => match ev with
    | RmtEvent.transmit bytes _ _ => some bytes
    | _ => none)

/-- A concrete GRB device with 10 LEDs and an all-zero buffer. -/
def strip0 : led_strip_rmt_obj :=
  { led_pixel_format := LED_PIXEL_FORMAT_GRB, strip_len := 10,
    bytes_per_pixel := 3, pixel_buf := fun _ => 0 }

/-- Witness for C1: on the concrete GRB device, `set_pixel(0, 255, 0, 0)`
leaves bytes 0,1,2 equal to 0x00, 0xFF, 0x00. -/
theorem C1_set_pixel_wire_order_witness :
    (led_strip_rmt_set_pixel strip0 0 255 0 0).2.pixel_buf 0 = 0x00 ∧
    (led_strip_rmt_set_pixel strip0 0 255 0 0).2.pixel_buf 1 = 0xFF ∧
    (led_strip_rmt_set_pixel strip0 0 255 0 0).2.pixel_buf 2 = 0x00 := by
  have h := (C1_set_pixel_wire_order strip0 0 255 0 0 0 (by decide)).2.1 rfl
  simp only [strip0] at h
  exact ⟨h.1, h.2.1, h.2.2.1⟩

/-- An environment in which every RMT collaborator call succeeds. -/
def envOK : RmtEnv :=
  { enable_result := ESP_OK, transmit_result := ESP_OK,
    wait_result := ESP_OK, disable_result := ESP_OK }

/-- An environment in which `rmt_enable` fails with code 0x103 and every other
call would succeed. -/
def envEnableFail : RmtEnv :=
  { enable_result := 0x103, transmit_result := ESP_OK,
    wait_result := ESP_OK, disable_result := ESP_OK }

/-- C2: `refresh` executes exactly the ordered sequence enable, transmit
(`strip_len * bytes_per_pixel` bytes, `loop_count = 0`), unbounded wait
(timeout `-1`), disable; a transmit or wait failure still invokes disable and
returns the original transmit/wait error (never the disable error); an enable
failure returns the enable error with disable never invoked; and on every path
where enable succeeded, a disable invocation occurs. -/
theorem C2_refresh_protocol (env : RmtEnv) (strip : led_strip_rmt_obj) :
    (env.enable_result ≠ ESP_OK →
      (led_strip_rmt_refresh env strip).1 = env.enable_result ∧
      (led_strip_rmt_refresh env strip).2.2 = [RmtEvent.enable]) ∧
    (env.enable_result = ESP_OK → env.transmit_result ≠ ESP_OK →
      (led_strip_rmt_refresh env strip).1 = env.transmit_result ∧
      (led_strip_rmt_refresh env strip).2.2 =
        [RmtEvent.enable,
          RmtEvent.transmit (bufBytes strip)
            (strip.strip_len * strip.bytes_per_pixel) 0,
          RmtEvent.disable]) ∧
    (env.enable_result = ESP_OK → env.transmit_result = ESP_OK →
      env.wait_result ≠ ESP_OK →
      (led_strip_rmt_refresh env strip).1 = env.wait_result ∧
      (led_strip_rmt_refresh env strip).2.2 =
        [RmtEvent.enable,
          RmtEvent.transmit (bufBytes strip)
            (strip.strip_len * strip.bytes_per_pixel) 0,
          RmtEvent.wait_all_done (-1), RmtEvent.disable]) ∧
    (env.enable_result = ESP_OK → env.transmit_result = ESP_OK →
      env.wait_result = ESP_OK →
      (led_strip_rmt_refresh env strip).1 = env.disable_result ∧
      (led_strip_rmt_refresh env strip).2.2 =
        [RmtEvent.enable,
          RmtEvent.transmit (bufBytes strip)
            (strip.strip_len * strip.bytes_per_pixel) 0,
          RmtEvent.wait_all_done (-1), RmtEvent.disable]) ∧
    (env.enable_result = ESP_OK →
      RmtEvent.disable ∈ (led_strip_rmt_refresh env strip).2.2) ∧
    (env.enable_result ≠ ESP_OK →
      RmtEvent.disable ∉ (led_strip_rmt_refresh env strip).2.2) := by
  by_cases h1 : env.enable_result = ESP_OK <;>
    by_cases h2 : env.transmit_result = ESP_OK <;>
      by_cases h3 : env.wait_result = ESP_OK <;>
        by_cases h4 : env.disable_result = ESP_OK <;>
          simp [led_strip_rmt_refresh, h1, h2, h3, h4]

/-- Witness for C2: with `rmt_enable` failing with code 0x103, `refresh` on the
concrete device returns 0x103 and invokes only the enable call. -/
theorem C2_refresh_protocol_witness :
    (led_strip_rmt_refresh envEnableFail strip0).1 = 0x103 ∧
    (led_strip_rmt_refresh envEnableFail strip0).2.2 = [RmtEvent.enable] := by
  have h := (C2_refresh_protocol envEnableFail strip0).1 (by decide)
  exact ⟨h.1.trans rfl, h.2⟩

/-- C5: `clear` zeroes exactly the `strip_len * bytes_per_pixel` bytes of the
pixel buffer (all other byte offsets untouched) and then invokes `refresh`
exactly once, on the zeroed device; in particular the transmitted frame is the
all-zero byte sequence. -/
theorem C5_clear_zeroes_and_refreshes (env : RmtEnv) (strip : led_strip_rmt_obj) :
    led_strip_rmt_clear env strip =
      led_strip_rmt_refresh env
        (setBuf strip (fun j =>
          if j < strip.strip_len * strip.bytes_per_pixel then 0
          else strip.pixel_buf j)) ∧
    (∀ j, j < strip.strip_len * strip.bytes_per_pixel →
      (led_strip_rmt_clear env strip).2.1.pixel_buf j = 0) ∧
    (∀ j, strip.strip_len * strip.bytes_per_pixel ≤ j →
      (led_strip_rmt_clear env strip).2.1.pixel_buf j = strip.pixel_buf j) ∧
    (env.enable_result = ESP_OK →
      transmitPayloads (led_strip_rmt_clear env strip).2.2 =
        [List.replicate (strip.strip_len * strip.bytes_per_pixel) 0]) := by
  have hpass : ∀ s, (led_strip_rmt_refresh env s).2.1 = s := by
    intro s
    unfold led_strip_rmt_refresh
    split_ifs <;> rfl
  have hbuf : (led_strip_rmt_clear env strip).2.1.pixel_buf = fun j =>
      if j < strip.strip_len * strip.bytes_per_pixel then 0
      else strip.pixel_buf j := by
    unfold led_strip_rmt_clear
    rw [hpass]
    rfl
  refine ⟨rfl, ?_, ?_, ?_⟩
  · intro j hj
    rw [hbuf]
    simp [hj]
  · intro j hj
    rw [hbuf]
    simp [Nat.not_lt.mpr hj]
  · intro henable
    have hzero : bufBytes (setBuf strip (fun j =>
        if j < strip.strip_len * strip.bytes_per_pixel then 0
        else strip.pixel_buf j)) =
        List.replicate (strip.strip_len * strip.bytes_per_pixel) 0 := by
      rw [List.eq_replicate_iff]
      refine ⟨by simp [bufBytes, setBuf], ?_⟩
      intro x hx
      simp only [bufBytes, setBuf, List.mem_map, List.mem_range] at hx
      obtain ⟨j, hj, rfl⟩ := hx
      simp [hj]
    unfold led_strip_rmt_clear led_strip_rmt_refresh
    by_cases h2 : env.transmit_result = ESP_OK <;>
      by_cases h3 : env.wait_result = ESP_OK <;>
        by_cases h4 : env.disable_result = ESP_OK <;>
          simp [henable, h2, h3, h4, transmitPayloads, hzero]

/-- Witness for C5: clearing the concrete 10-LED GRB device in the all-success
environment transmits one frame of 30 zero bytes. -/
theorem C5_clear_zeroes_and_refreshes_witness :
    transmitPayloads (led_strip_rmt_clear envOK strip0).2.2 =
      [List.replicate 30 0] := by
  have h := (C5_clear_zeroes_and_refreshes envOK strip0).2.2.2 rfl
  exact h.trans (by decide)

/-- C8: `refresh` never modifies the pixel buffer or any other device field
(it returns the device unchanged), and two consecutive `refresh` calls with no
intervening pixel writes hand bytewise-identical byte sequences to
`rmt_transmit` — both submit exactly `bufBytes strip`. -/
theorem C8_refresh_reads_only (env env2 : RmtEnv) (strip : led_strip_rmt_obj) :
    (led_strip_rmt_refresh env strip).2.1 = strip ∧
    (env.enable_result = ESP_OK →
      transmitPayloads (led_strip_rmt_refresh env strip).2.2 =
        [bufBytes strip]) ∧
    (env.enable_result = ESP_OK → env2.enable_result = ESP_OK →
      transmitPayloads
          (led_strip_rmt_refresh env2
            (led_strip_rmt_refresh env strip).2.1).2.2 =
        transmitPayloads (led_strip_rmt_refresh env strip).2.2) := by
  have hpass : ∀ e s, (led_strip_rmt_refresh e s).2.1 = s := by
    intro e s
    unfold led_strip_rmt_refresh
    split_ifs <;> rfl
  have hpay : ∀ (e : RmtEnv) s, e.enable_result = ESP_OK →
      transmitPayloads (led_strip_rmt_refresh e s).2.2 = [bufBytes s] := by
    intro e s he
    unfold led_strip_rmt_refresh
    by_cases h2 : e.transmit_result = ESP_OK <;>
      by_cases h3 : e.wait_result = ESP_OK <;>
        by_cases h4 : e.disable_result = ESP_OK <;>
          simp [he, h2, h3, h4, transmitPayloads]
  refine ⟨hpass env strip, hpay env strip, ?_⟩
  intro he he2
  rw [hpass env strip, hpay env2 strip he2, hpay env strip he]

/-- Witness for C8: in the all-success environment, two consecutive refreshes
of the concrete device submit the same single payload. -/
theorem C8_refresh_reads_only_witness :
    transmitPayloads
        (led_strip_rmt_refresh envOK
          (led_strip_rmt_refresh envOK strip0).2.1).2.2 =
      transmitPayloads (led_strip_rmt_refresh envOK strip0).2.2 := by
  exact (C8_refresh_reads_only envOK envOK strip0).2.2 rfl rfl

/-- A concrete RGB device with 10 LEDs and an all-zero buffer. -/
def strip1 : led_strip_rmt_obj :=
  { led_pixel_format := LED_PIXEL_FORMAT_RGB, strip_len := 10,
    bytes_per_pixel := 3, pixel_buf := fun _ => 0 }

/-- A concrete GRBW device with 5 LEDs and an all-zero buffer. -/
def strip2 : led_strip_rmt_obj :=
  { led_pixel_format := LED_PIXEL_FORMAT_GRBW, strip_len := 5,
    bytes_per_pixel := 4, pixel_buf := fun _ => 0 }

/-- C3: on an RGB or GRB device, `set_pixel` succeeds and performs the write
for every index whatsoever — the index is never compared against `strip_len` —
and it returns `ESP_ERR_INVALID_ARG` exactly when the format is neither RGB
nor GRB, in which case it writes nothing. -/
theorem C3_set_pixel_index_unchecked (strip : led_strip_rmt_obj)
    (index red green blue : Nat) :
    ((strip.led_pixel_format = LED_PIXEL_FORMAT_RGB ∨
      strip.led_pixel_format = LED_PIXEL_FORMAT_GRB) →
      (led_strip_rmt_set_pixel strip index red green blue).1 = ESP_OK ∧
      (led_strip_rmt_set_pixel strip index red green blue).2.pixel_buf
        (index * strip.bytes_per_pixel + 2) = blue % 256) ∧
    ((led_strip_rmt_set_pixel strip index red green blue).1 =
        ESP_ERR_INVALID_ARG ↔
      ¬(strip.led_pixel_format = LED_PIXEL_FORMAT_RGB ∨
        strip.led_pixel_format = LED_PIXEL_FORMAT_GRB)) ∧
    (¬(strip.led_pixel_format = LED_PIXEL_FORMAT_RGB ∨
       strip.led_pixel_format = LED_PIXEL_FORMAT_GRB) →
      (led_strip_rmt_set_pixel strip index red green blue).2 = strip) := by
  by_cases hr : strip.led_pixel_format = LED_PIXEL_FORMAT_RGB
  · refine ⟨fun _ => ⟨set_pixel_rgb_fst strip index red green blue hr, ?_⟩, ?_, ?_⟩
    · rw [set_pixel_rgb_buf strip index red green blue hr]
      exact write3_at2 _ _ _ _ _
    · rw [set_pixel_rgb_fst strip index red green blue hr]
      simp [hr, ESP_OK, ESP_ERR_INVALID_ARG]
    · intro hcon
      exact absurd (Or.inl hr) hcon
  · by_cases hg : strip.led_pixel_format = LED_PIXEL_FORMAT_GRB
    · refine ⟨fun _ => ⟨set_pixel_grb_fst strip index red green blue hg, ?_⟩, ?_, ?_⟩
      · rw [set_pixel_grb_buf strip index red green blue hg]
        exact write3_at2 _ _ _ _ _
      · rw [set_pixel_grb_fst strip index red green blue hg]
        simp [hg, ESP_OK, ESP_ERR_INVALID_ARG]
      · intro hcon
        exact absurd (Or.inr hg) hcon
    · rw [set_pixel_bad_format_eq strip index red green blue hr hg]
      refine ⟨fun hc => ?_, ?_, fun _ => rfl⟩
      · rcases hc with hc | hc
        · exact absurd hc hr
        · exact absurd hc hg
      · simp [hr, hg]

/-- Witness for C3: on the concrete 10-LED GRB device, `set_pixel` at the
out-of-bounds index 99 still succeeds and writes the blue byte at offset
`99 * 3 + 2`. -/
theorem C3_set_pixel_index_unchecked_witness :
    (led_strip_rmt_set_pixel strip0 99 1 2 3).1 = ESP_OK ∧
    (led_strip_rmt_set_pixel strip0 99 1 2 3).2.pixel_buf (99 * 3 + 2) = 3 := by
  have h := (C3_set_pixel_index_unchecked strip0 99 1 2 3).1 (Or.inr rfl)
  exact ⟨h.1, h.2⟩

/-- C4: `set_pixel_rgbw` fails with `ESP_ERR_INVALID_ARG` and leaves the
device untouched whenever `index >= strip_len` or `bytes_per_pixel ≠ 4`, and
succeeds when `index < strip_len` and `bytes_per_pixel = 4`. -/
theorem C4_set_pixel_rgbw_validation (strip : led_strip_rmt_obj)
    (index red green blue white : Nat) :
    ((strip.strip_len ≤ index ∨ strip.bytes_per_pixel ≠ 4) →
      (led_strip_rmt_set_pixel_rgbw strip index red green blue white).1 =
        ESP_ERR_INVALID_ARG ∧
      (led_strip_rmt_set_pixel_rgbw strip index red green blue white).2 =
        strip) ∧
    (index < strip.strip_len → strip.bytes_per_pixel = 4 →
      (led_strip_rmt_set_pixel_rgbw strip index red green blue white).1 =
        ESP_OK) := by
  constructor
  · intro hfail
    rw [set_pixel_rgbw_fail_eq strip index red green blue white hfail]
    exact ⟨rfl, rfl⟩
  · intro h1 h2
    exact set_pixel_rgbw_ok_fst strip index red green blue white h1 h2

/-- Witness for C4: on the concrete 3-byte-per-pixel GRB device,
`set_pixel_rgbw` fails with `ESP_ERR_INVALID_ARG` and returns the device
unchanged. -/
theorem C4_set_pixel_rgbw_validation_witness :
    (led_strip_rmt_set_pixel_rgbw strip0 0 1 2 3 4).1 = ESP_ERR_INVALID_ARG ∧
    (led_strip_rmt_set_pixel_rgbw strip0 0 1 2 3 4).2 = strip0 :=
  (C4_set_pixel_rgbw_validation strip0 0 1 2 3 4).1 (Or.inr (by decide))

/-- C6: every channel byte written by `set_pixel` and `set_pixel_rgbw` is the
argument reduced modulo 256, and the result code does not depend on the
channel values at all (no clamping, no error for values above 255). -/
theorem C6_channel_truncation (strip : led_strip_rmt_obj)
    (index red green blue white red2 green2 blue2 white2 : Nat) :
    (strip.led_pixel_format = LED_PIXEL_FORMAT_RGB →
      (led_strip_rmt_set_pixel strip index red green blue).2.pixel_buf
        (index * strip.bytes_per_pixel) = red % 256 ∧
      (led_strip_rmt_set_pixel strip index red green blue).2.pixel_buf
        (index * strip.bytes_per_pixel + 1) = green % 256 ∧
      (led_strip_rmt_set_pixel strip index red green blue).2.pixel_buf
        (index * strip.bytes_per_pixel + 2) = blue % 256) ∧
    (strip.led_pixel_format = LED_PIXEL_FORMAT_GRB →
      (led_strip_rmt_set_pixel strip index red green blue).2.pixel_buf
        (index * strip.bytes_per_pixel + 1) = red % 256) ∧
    ((led_strip_rmt_set_pixel strip index red green blue).1 =
      (led_strip_rmt_set_pixel strip index red2 green2 blue2).1) ∧
    (index < strip.strip_len → strip.bytes_per_pixel = 4 →
      (led_strip_rmt_set_pixel_rgbw strip index red green blue white).2.pixel_buf
        (index * 4) = green % 256 ∧
      (led_strip_rmt_set_pixel_rgbw strip index red green blue white).2.pixel_buf
        (index * 4 + 1) = red % 256 ∧
      (led_strip_rmt_set_pixel_rgbw strip index red green blue white).2.pixel_buf
        (index * 4 + 2) = blue % 256 ∧
      (led_strip_rmt_set_pixel_rgbw strip index red green blue white).2.pixel_buf
        (index * 4 + 3) = white % 256) ∧
    ((led_strip_rmt_set_pixel_rgbw strip index red green blue white).1 =
      (led_strip_rmt_set_pixel_rgbw strip index red2 green2 blue2 white2).1) := by
  refine ⟨?_, ?_, ?_, ?_, ?_⟩
  · intro hr
    rw [set_pixel_rgb_buf strip index red green blue hr]
    exact ⟨write3_at0 _ _ _ _ _, write3_at1 _ _ _ _ _, write3_at2 _ _ _ _ _⟩
  · intro hg
    rw [set_pixel_grb_buf strip index red green blue hg]
    exact write3_at1 _ _ _ _ _
  · by_cases hr : strip.led_pixel_format = LED_PIXEL_FORMAT_RGB
    · rw [set_pixel_rgb_fst strip index red green blue hr,
        set_pixel_rgb_fst strip index red2 green2 blue2 hr]
    · by_cases hg : strip.led_pixel_format = LED_PIXEL_FORMAT_GRB
      · rw [set_pixel_grb_fst strip index red green blue hg,
          set_pixel_grb_fst strip index red2 green2 blue2 hg]
      · rw [set_pixel_bad_format_eq strip index red green blue hr hg,
          set_pixel_bad_format_eq strip index red2 green2 blue2 hr hg]
  · intro h1 h2
    rw [set_pixel_rgbw_ok_buf strip index red green blue white h1 h2]
    exact ⟨write4_at0 _ _ _ _ _ _, write4_at1 _ _ _ _ _ _,
      write4_at2 _ _ _ _ _ _, write4_at3 _ _ _ _ _ _⟩
  · by_cases h1 : index < strip.strip_len
    · by_cases h2 : strip.bytes_per_pixel = 4
      · rw [set_pixel_rgbw_ok_fst strip index red green blue white h1 h2,
          set_pixel_rgbw_ok_fst strip index red2 green2 blue2 white2 h1 h2]
      · rw [set_pixel_rgbw_fail_eq strip index red green blue white (Or.inr h2),
          set_pixel_rgbw_fail_eq strip index red2 green2 blue2 white2 (Or.inr h2)]
    · rw [set_pixel_rgbw_fail_eq strip index red green blue white
          (Or.inl (Nat.not_lt.mp h1)),
        set_pixel_rgbw_fail_eq strip index red2 green2 blue2 white2
          (Or.inl (Nat.not_lt.mp h1))]

/-- Witness for C6: on the concrete RGB device, writing `red = 300` stores the
byte `44 = 300 % 256`. -/
theorem C6_channel_truncation_witness :
    (led_strip_rmt_set_pixel strip1 0 300 0 0).2.pixel_buf 0 = 44 := by
  have h := (C6_channel_truncation strip1 0 300 0 0 0 0 0 0 0).1 rfl
  exact h.1.trans (by norm_num)

/-! ### Construction and destruction

`led_strip_new_rmt_device` and `led_strip_rmt_del` manipulate three owned
resources: the RMT TX channel, the strip encoder, and the `calloc`-ed object
(which holds the pixel buffer).  `Resources` records which of them are
currently held; the collaborator environments supply the result of each
acquisition or release call. -/

/-- Which of the three owned resources are currently held. -/
structure Resources where
  channel : Bool
  encoder : Bool
  buffer : Bool
deriving DecidableEq, Repr

/-- Collaborator results for `led_strip_new_rmt_device`: whether `calloc`
returns memory, and the result codes of `rmt_new_tx_channel` and
`rmt_new_led_strip_encoder`. -/
structure CreateEnv where
  calloc_ok : Bool
  new_tx_channel_result : Nat
  new_encoder_result : Nat

/-- The `err:` label of `led_strip_new_rmt_device` (lines 215–225): if the
object allocation exists, delete the RMT channel if it was created, delete the
encoder if it was created, and free the allocation; otherwise do nothing. -/
def create_err_cleanup (r : Resources) : Resources :=
  if r.buffer then
    let r1 := if r.channel then { r with channel := false } else r
    let r2 := if r1.encoder then { r1 with encoder := false } else r1
    { r2 with buffer := false }
  else r

/-- The freshly populated, zero-initialised (`calloc`) device object. -/
def mkDevice (fmt len bpp : Nat) : led_strip_rmt_obj :=
  { led_pixel_format := fmt, strip_len := len, bytes_per_pixel := bpp,
    pixel_buf := fun _ => 0 }

/-- The tail of `led_strip_new_rmt_device` after `bytes_per_pixel` has been
determined (lines 163–225): `calloc` the object (goto err with `ESP_ERR_NO_MEM`
on failure), create the RMT TX channel (goto err on failure), create the strip
encoder (goto err on failure), then populate the object and return `ESP_OK`.
A failed construction leaves its handle NULL in the zero-initialised object,
so the cleanup only releases what was actually acquired. -/
def led_strip_new_rmt_device_tail (env : CreateEnv)
    (led_pixel_format max_leds bytes_per_pixel : Nat) :
    Nat × Option led_strip_rmt_obj × Resources :=
  if ¬ env.calloc_ok then
    (ESP_ERR_NO_MEM, none,
      create_err_cleanup { channel := false, encoder := false, buffer := false })
  else if env.new_tx_channel_result ≠ ESP_OK then
    (env.new_tx_channel_result, none,
      create_err_cleanup { channel := false, encoder := false, buffer := true })
  else if env.new_encoder_result ≠ ESP_OK then
    (env.new_encoder_result, none,
      create_err_cleanup { channel := true, encoder := false, buffer := true })
  else
    (ESP_OK, some (mkDevice led_pixel_format max_leds bytes_per_pixel),
      { channel := true, encoder := true, buffer := true })

/-- `led_strip_new_rmt_device` (lines 140–226): reject
`led_pixel_format >= LED_PIXEL_FORMAT_INVALID` with `ESP_ERR_INVALID_ARG`
(goto err with nothing allocated); derive `bytes_per_pixel` (4 for GRBW, 3 for
GRB/RGB, direct `ESP_ERR_INVALID_ARG` return otherwise); then run the
allocation/construction tail. -/
def led_strip_new_rmt_device (env : CreateEnv)
    (led_pixel_format max_leds : Nat) :
    Nat × Option led_strip_rmt_obj × Resources :=
  if ¬ led_pixel_format < LED_PIXEL_FORMAT_INVALID then
    (ESP_ERR_INVALID_ARG, none,
      create_err_cleanup { channel := false, encoder := false, buffer := false })
  else if led_pixel_format = LED_PIXEL_FORMAT_GRBW then
    led_strip_new_rmt_device_tail env led_pixel_format max_leds 4
  else if led_pixel_format = LED_PIXEL_FORMAT_GRB ∨
      led_pixel_format = LED_PIXEL_FORMAT_RGB then
    led_strip_new_rmt_device_tail env led_pixel_format max_leds 3
  else
    (ESP_ERR_INVALID_ARG, none,
      { channel := false, encoder := false, buffer := false })

/-- Collaborator results for `led_strip_rmt_del`. -/
structure DelEnv where
  del_channel_result : Nat
  del_encoder_result : Nat

/-- `led_strip_rmt_del` (lines 130–138): delete the RMT channel, returning its
error on failure; then delete the encoder, returning its error on failure (the
channel is already released at that point); then `free` the object and return
`ESP_OK`. -/
def led_strip_rmt_del (env : DelEnv) (r : Resources) : Nat × Resources :=
  if env.del_channel_result ≠ ESP_OK then
    (env.del_channel_result, r)
  else if env.del_encoder_result ≠ ESP_OK then
    (env.del_encoder_result, { r with channel := false })
  else
    (ESP_OK, { channel := false, encoder := false, buffer := false })

theorem create_tail_fail (env : CreateEnv) (fmt max_leds bpp : Nat)
    (h : (led_strip_new_rmt_device_tail env fmt max_leds bpp).1 ≠ ESP_OK) :
    (led_strip_new_rmt_device_tail env fmt max_leds bpp).2.1 = none ∧
    (led_strip_new_rmt_device_tail env fmt max_leds bpp).2.2 =
      { channel := false, encoder := false, buffer := false } := by
  by_cases c1 : env.calloc_ok
  · by_cases c2 : env.new_tx_channel_result = ESP_OK
    · by_cases c3 : env.new_encoder_result = ESP_OK
      · exfalso
        apply h
        simp [led_strip_new_rmt_device_tail, c1, c2, c3]
      · constructor <;>
          simp [led_strip_new_rmt_device_tail, c1, c2, c3, create_err_cleanup]
    · constructor <;>
        simp [led_strip_new_rmt_device_tail, c1, c2, create_err_cleanup]
  · constructor <;>
      simp [led_strip_new_rmt_device_tail, c1, create_err_cleanup]

theorem create_tail_bpp (env : CreateEnv) (fmt max_leds bpp : Nat)
    (s : led_strip_rmt_obj)
    (h : (led_strip_new_rmt_device_tail env fmt max_leds bpp).2.1 = some s) :
    s.bytes_per_pixel = bpp := by
  by_cases c1 : env.calloc_ok
  · by_cases c2 : env.new_tx_channel_result = ESP_OK
    · by_cases c3 : env.new_encoder_result = ESP_OK
      · have h2 := h
        simp [led_strip_new_rmt_device_tail, c1, c2, c3] at h2
        rw [← h2]
        rfl
      · simp [led_strip_new_rmt_device_tail, c1, c2, c3] at h
    · simp [led_strip_new_rmt_device_tail, c1, c2] at h
  · simp [led_strip_new_rmt_device_tail, c1] at h

/-- C7: `create` fails with `ESP_ERR_INVALID_ARG` for every unrecognized pixel
format (any value at or beyond `LED_PIXEL_FORMAT_INVALID`), derives
`bytes_per_pixel` as 4 for GRBW and 3 for RGB/GRB, and on every failure branch
returns with no resource still held — channel, encoder and buffer all
released — and no device produced. -/
theorem C7_create_unwinds (env : CreateEnv) (fmt max_leds : Nat) :
    (LED_PIXEL_FORMAT_INVALID ≤ fmt →
      (led_strip_new_rmt_device env fmt max_leds).1 = ESP_ERR_INVALID_ARG) ∧
    ((led_strip_new_rmt_device env fmt max_leds).1 ≠ ESP_OK →
      (led_strip_new_rmt_device env fmt max_leds).2.1 = none ∧
      (led_strip_new_rmt_device env fmt max_leds).2.2 =
        { channel := false, encoder := false, buffer := false }) ∧
    (fmt = LED_PIXEL_FORMAT_GRBW →
      ∀ s, (led_strip_new_rmt_device env fmt max_leds).2.1 = some s →
        s.bytes_per_pixel = 4) ∧
    ((fmt = LED_PIXEL_FORMAT_RGB ∨ fmt = LED_PIXEL_FORMAT_GRB) →
      ∀ s, (led_strip_new_rmt_device env fmt max_leds).2.1 = some s →
        s.bytes_per_pixel = 3) := by
  by_cases hv : fmt < LED_PIXEL_FORMAT_INVALID
  · by_cases hw : fmt = LED_PIXEL_FORMAT_GRBW
    · have hdev : led_strip_new_rmt_device env fmt max_leds =
          led_strip_new_rmt_device_tail env fmt max_leds 4 := by
        simp [led_strip_new_rmt_device, hw, LED_PIXEL_FORMAT_GRBW,
          LED_PIXEL_FORMAT_INVALID]
      refine ⟨fun hge => absurd hv (Nat.not_lt.mpr hge), ?_, ?_, ?_⟩
      · rw [hdev]
        exact create_tail_fail env fmt max_leds 4
      · intro _ s hs
        rw [hdev] at hs
        exact create_tail_bpp env fmt max_leds 4 s hs
      · intro hrg
        exfalso
        have hw1 : fmt = 1 := hw
        rcases hrg with hrg | hrg
        · have : fmt = 2 := hrg
          omega
        · have : fmt = 0 := hrg
          omega
    · have hrg : fmt = LED_PIXEL_FORMAT_GRB ∨ fmt = LED_PIXEL_FORMAT_RGB := by
        have hv3 : fmt < 3 := hv
        have hw1 : fmt ≠ 1 := hw
        show fmt = 0 ∨ fmt = 2
        omega
      have hdev : led_strip_new_rmt_device env fmt max_leds =
          led_strip_new_rmt_device_tail env fmt max_leds 3 := by
        simp [led_strip_new_rmt_device, hv, hw, hrg]
      refine ⟨fun hge => absurd hv (Nat.not_lt.mpr hge), ?_, ?_, ?_⟩
      · rw [hdev]
        exact create_tail_fail env fmt max_leds 3
      · intro hw2
        exact absurd hw2 hw
      · intro _ s hs
        rw [hdev] at hs
        exact create_tail_bpp env fmt max_leds 3 s hs
  · have hdev : led_strip_new_rmt_device env fmt max_leds =
        (ESP_ERR_INVALID_ARG, none,
          ({ channel := false, encoder := false, buffer := false } :
            Resources)) := by
      simp [led_strip_new_rmt_device, hv, create_err_cleanup]
    refine ⟨fun _ => by rw [hdev], fun _ => by rw [hdev]; exact ⟨rfl, rfl⟩,
      ?_, ?_⟩
    · intro hw s hs
      rw [hdev] at hs
      exact absurd hs (by simp)
    · intro hrg s hs
      rw [hdev] at hs
      exact absurd hs (by simp)

/-- An environment in which the encoder construction fails with code 0x105
after the allocation and the channel construction succeeded. -/
def envEncoderFail : CreateEnv :=
  { calloc_ok := true, new_tx_channel_result := ESP_OK,
    new_encoder_result := 0x105 }

/-- Witness for C7: when the encoder construction fails, `create` for a GRBW
strip reports the error, produces no device, and holds no resource — the
already-created channel and the allocation were rolled back. -/
theorem C7_create_unwinds_witness :
    (led_strip_new_rmt_device envEncoderFail LED_PIXEL_FORMAT_GRBW 5).2.1 =
      none ∧
    (led_strip_new_rmt_device envEncoderFail LED_PIXEL_FORMAT_GRBW 5).2.2 =
      { channel := false, encoder := false, buffer := false } :=
  (C7_create_unwinds envEncoderFail LED_PIXEL_FORMAT_GRBW 5).2.1 (by decide)

/-- C9: `destroy` frees the device memory only when both the channel release
and the encoder release succeed; if the channel release fails it returns that
error with nothing released, and if the encoder release fails it returns that
error with the buffer/device memory still held. -/
theorem C9_del_release_order (env : DelEnv) (r : Resources) :
    (env.del_channel_result = ESP_OK → env.del_encoder_result = ESP_OK →
      (led_strip_rmt_del env r).1 = ESP_OK ∧
      (led_strip_rmt_del env r).2 =
        { channel := false, encoder := false, buffer := false }) ∧
    (env.del_channel_result ≠ ESP_OK →
      (led_strip_rmt_del env r).1 = env.del_channel_result ∧
      (led_strip_rmt_del env r).2 = r) ∧
    (env.del_channel_result = ESP_OK → env.del_encoder_result ≠ ESP_OK →
      (led_strip_rmt_del env r).1 = env.del_encoder_result ∧
      (led_strip_rmt_del env r).2.buffer = r.buffer ∧
      (led_strip_rmt_del env r).2.encoder = r.encoder) := by
  by_cases h1 : env.del_channel_result = ESP_OK <;>
    by_cases h2 : env.del_encoder_result = ESP_OK <;>
      simp [led_strip_rmt_del, h1, h2]

/-- An environment in which the encoder release fails with code 0x106. -/
def envDelEncoderFail : DelEnv :=
  { del_channel_result := ESP_OK, del_encoder_result := 0x106 }

/-- Witness for C9: with all three resources held and the encoder release
failing, `destroy` reports the encoder error and the buffer is still held. -/
theorem C9_del_release_order_witness :
    (led_strip_rmt_del envDelEncoderFail
      { channel := true, encoder := true, buffer := true }).1 = 0x106 ∧
    (led_strip_rmt_del envDelEncoderFail
      { channel := true, encoder := true, buffer := true }).2.buffer = true := by
  have h := (C9_del_release_order envDelEncoderFail
    { channel := true, encoder := true, buffer := true }).2.2 rfl (by decide)
  exact ⟨h.1.trans rfl, h.2.1⟩

/-- The invariant `led_strip_new_rmt_device` establishes on every device it
returns: `bytes_per_pixel` is 3 on RGB/GRB devices and 4 on GRBW devices. -/
def WellFormed (strip : led_strip_rmt_obj) : Prop :=
  ((strip.led_pixel_format = LED_PIXEL_FORMAT_RGB ∨
    strip.led_pixel_format = LED_PIXEL_FORMAT_GRB) →
    strip.bytes_per_pixel = 3) ∧
  (strip.led_pixel_format = LED_PIXEL_FORMAT_GRBW → strip.bytes_per_pixel = 4)

/-- C10: on a well-formed device, every successful `set_pixel` or
`set_pixel_rgbw` call modifies only the `bytes_per_pixel` buffer bytes of the
addressed pixel, and `set_pixel`, `set_pixel_rgbw`, `clear` and `refresh` all
leave `led_pixel_format`, `strip_len` and `bytes_per_pixel` unchanged
(`refresh` returns the device entirely unchanged). -/
theorem C10_frame_conditions (env : RmtEnv) (strip : led_strip_rmt_obj)
    (index red green blue white : Nat) (hwf : WellFormed strip) :
    ((led_strip_rmt_set_pixel strip index red green blue).1 = ESP_OK →
      ∀ j, j < index * strip.bytes_per_pixel ∨
          index * strip.bytes_per_pixel + strip.bytes_per_pixel ≤ j →
        (led_strip_rmt_set_pixel strip index red green blue).2.pixel_buf j =
          strip.pixel_buf j) ∧
    ((led_strip_rmt_set_pixel_rgbw strip index red green blue white).1 =
        ESP_OK →
      ∀ j, j < index * strip.bytes_per_pixel ∨
          index * strip.bytes_per_pixel + strip.bytes_per_pixel ≤ j →
        (led_strip_rmt_set_pixel_rgbw strip index red green blue white).2.pixel_buf
          j = strip.pixel_buf j) ∧
    ((led_strip_rmt_set_pixel strip index red green blue).2.led_pixel_format =
        strip.led_pixel_format ∧
      (led_strip_rmt_set_pixel strip index red green blue).2.strip_len =
        strip.strip_len ∧
      (led_strip_rmt_set_pixel strip index red green blue).2.bytes_per_pixel =
        strip.bytes_per_pixel) ∧
    ((led_strip_rmt_set_pixel_rgbw strip index red green blue white).2.led_pixel_format =
        strip.led_pixel_format ∧
      (led_strip_rmt_set_pixel_rgbw strip index red green blue white).2.strip_len =
        strip.strip_len ∧
      (led_strip_rmt_set_pixel_rgbw strip index red green blue white).2.bytes_per_pixel =
        strip.bytes_per_pixel) ∧
    (led_strip_rmt_refresh env strip).2.1 = strip ∧
    ((led_strip_rmt_clear env strip).2.1.led_pixel_format =
        strip.led_pixel_format ∧
      (led_strip_rmt_clear env strip).2.1.strip_len = strip.strip_len ∧
      (led_strip_rmt_clear env strip).2.1.bytes_per_pixel =
        strip.bytes_per_pixel) := by
  have hpass : ∀ s, (led_strip_rmt_refresh env s).2.1 = s := by
    intro s
    unfold led_strip_rmt_refresh
    split_ifs <;> rfl
  refine ⟨?_, ?_, set_pixel_fields strip index red green blue,
    set_pixel_rgbw_fields strip index red green blue white, hpass strip, ?_⟩
  · intro hok j hj
    by_cases hr : strip.led_pixel_format = LED_PIXEL_FORMAT_RGB
    · have hbpp := hwf.1 (Or.inl hr)
      rw [set_pixel_rgb_buf strip index red green blue hr]
      rw [hbpp] at hj ⊢
      exact write3_frame _ _ _ _ _ _ (by omega) (by omega) (by omega)
    · by_cases hg : strip.led_pixel_format = LED_PIXEL_FORMAT_GRB
      · have hbpp := hwf.1 (Or.inr hg)
        rw [set_pixel_grb_buf strip index red green blue hg]
        rw [hbpp] at hj ⊢
        exact write3_frame _ _ _ _ _ _ (by omega) (by omega) (by omega)
      · rw [set_pixel_bad_format_eq strip index red green blue hr hg] at hok
        simp [ESP_ERR_INVALID_ARG, ESP_OK] at hok
  · intro hok j hj
    by_cases h1 : index < strip.strip_len
    · by_cases h2 : strip.bytes_per_pixel = 4
      · rw [set_pixel_rgbw_ok_buf strip index red green blue white h1 h2]
        rw [h2] at hj
        exact write4_frame _ _ _ _ _ _ _ (by omega) (by omega) (by omega)
          (by omega)
      · rw [set_pixel_rgbw_fail_eq strip index red green blue white
            (Or.inr h2)] at hok
        simp [ESP_ERR_INVALID_ARG, ESP_OK] at hok
    · rw [set_pixel_rgbw_fail_eq strip index red green blue white
          (Or.inl (Nat.not_lt.mp h1))] at hok
      simp [ESP_ERR_INVALID_ARG, ESP_OK] at hok
  · unfold led_strip_rmt_clear
    rw [hpass]
    exact ⟨rfl, rfl, rfl⟩

/-- Witness for C10: on the concrete GRBW device, `set_pixel_rgbw` at pixel 2
leaves byte 0 (outside the addressed pixel) unchanged, and `refresh` returns
the device unchanged. -/
theorem C10_frame_conditions_witness :
    (led_strip_rmt_set_pixel_rgbw strip2 2 10 20 30 40).2.pixel_buf 0 = 0 ∧
    (led_strip_rmt_refresh envOK strip2).2.1 = strip2 := by
  have hwf : WellFormed strip2 :=
    ⟨fun h => by rcases h with h | h <;> exact absurd h (by decide),
      fun _ => rfl⟩
  have h := C10_frame_conditions envOK strip2 2 10 20 30 40 hwf
  refine ⟨?_, h.2.2.2.2.1⟩
  have hframe := h.2.1 (by decide) 0 (Or.inl (by decide))
  exact hframe.trans rfl

end LedStrip
